import Mathlib

/-!
Verification of the GIF transform adapter (`thumbor/engines/gif.py`).

The adapter wraps three external binaries (gifsicle, gif2webp, a HEIF-to-JPEG
converter).  We model it as a state machine over `EngineState`, with an
`Env` record standing for the ambient context (configuration paths, request
URL, and oracles giving each subprocess invocation an exit code and output).
Every engine operation returns its result together with a trace of the
externally visible events it performed (subprocess calls, temporary-file
creations and deletions, metric increments), so that claims about side
effects — which tool was invoked, which files were created and removed —
become statements about the trace.

Byte buffers are modelled as strings (the code is Python-2 era, where
subprocess output is a byte string searched directly by the two regexes).
-/

namespace GifEngine

/-- Byte buffers (Python 2 `str`). -/
abbrev Buf := String

/-- Externally visible events performed by the adapter. -/
inductive Call where
  /-- A gifsicle subprocess spawned with the given argv, fed `input` on stdin. -/
  | gifsicle (argv : List String) (input : Buf)
  /-- A gif2webp subprocess spawned with the given argv. -/
  | gif2webp (argv : List String)
  /-- A HEIF-to-JPEG subprocess spawned with the given argv. -/
  | heif2jpg (argv : List String)
  /-- A named temporary file was created (`NamedTemporaryFile(delete=False)`). -/
  | tmpCreate (name : String)
  /-- A file was deleted (`os.unlink`). -/
  | tmpUnlink (name : String)
  /-- A metrics counter was incremented (`context.metrics.incr`). -/
  | metricsIncr (key : String)
deriving DecidableEq, Repr

/-- Exceptions the module can raise.  Each tool error carries the exit code
and the command-line word list that the Python code interpolates into the
exception message (see `Err.message` below for the exact rendering). -/
inductive Err where
  /-- Python `GifSicleError`: gifsicle exited non-zero. -/
  | gifSicleError (returncode : Int) (command : List String)
  /-- Python `Gif2WebpError`: gif2webp exited non-zero. -/
  | gif2WebpError (returncode : Int) (command : List String)
  /-- Python `HEIF2JpgError`: the HEIF-to-JPEG tool exited non-zero. -/
  | heif2JpgError (returncode : Int) (command : List String)
  /-- Python `AttributeError`: raised when `.groups()` is called on the `None`
  returned by a failed regex search in `update_image_info`. -/
  | attributeError
  /-- The final buffer failed the PIL `Image.verify()` check in `read`
  (the original decoding exception is re-raised after the metric bump). -/
  | verificationError
  /-- An OS-level exception while spawning or talking to a transcoder
  subprocess (models `Popen`/`communicate` raising inside the `try` block). -/
  | spawnError
deriving DecidableEq, Repr

/-- The exception message the Python code builds, with the exit code and the
space-joined command line interpolated into a fixed template. -/
def Err.message : Err → String
  | .gifSicleError rc cmd =>
      "gifsicle command returned errorlevel " ++ toString rc ++
        " for command \"" ++ String.intercalate " " cmd ++ "\" (image maybe corrupted?)"
  | .gif2WebpError rc cmd =>
      "gif2webp command returned error level " ++ toString rc ++
        " for command \"" ++ String.intercalate " " cmd ++ "\""
  | .heif2JpgError rc cmd =>
      "heif2jpg command returned error level " ++ toString rc ++
        " for command \"" ++ String.intercalate " " cmd ++ "\""
  | .attributeError => "AttributeError"
  | .verificationError => "invalid gif engine result"
  | .spawnError => "OSError"

/-- Ambient context and subprocess oracles.  The three `*_exit` / result
fields decide what each external binary does when invoked: `rungif` yields
gifsicle exit code and stdout for a given argv and stdin; the transcoder
oracles yield `none` when the subprocess interaction itself raises an
OS exception, otherwise `some` exit code, with the output-file contents
given by `webp_result` / `jpg_result`. -/
structure Env where
  /-- Python `context.server.gifsicle_path`. -/
  gifsicle_path : String
  /-- Python `context.config.GIF2WEB_PATH`. -/
  gif2web_path : String
  /-- Python `context.config.HEIF2JPEG_PATH`. -/
  heif2jpeg_path : String
  /-- Python `context.config.QUALITY`. -/
  quality_cfg : Nat
  /-- Python `context.request.url`. -/
  request_url : String
  /-- gifsicle behaviour: argv and stdin to (exit code, stdout). -/
  rungif : List String → Buf → Int × Buf
  /-- gif2webp behaviour: argv to exit code (`none` models a raised exception). -/
  gif2webp_exit : List String → Option Int
  /-- Contents of the webp output file after a successful transcode. -/
  webp_result : Buf
  /-- HEIF-to-JPEG behaviour: argv to exit code (`none` models an exception). -/
  heif2jpg_exit : List String → Option Int
  /-- Contents of the jpg output file after a successful transcode. -/
  jpg_result : Buf
  /-- Name assigned to the first temporary file of a `read` transcode. -/
  tmp1 : String
  /-- Name assigned to the second temporary file of a `read` transcode. -/
  tmp2 : String
  /-- Whether `PIL.Image.open(buffer).verify()` succeeds on a buffer. -/
  verify_ok : Buf → Bool

/-- Adapter instance state after `load`.  `image_size` and `frame_count` are
`Option` because a `.heif` load never sets them (reading them in Python then
raises `AttributeError`). -/
structure EngineState where
  extension : String
  buffer : Buf
  image : String
  operations : List String
  image_size : Option (Nat × Nat)
  frame_count : Option Nat
  is_multiple_flag : Bool
deriving DecidableEq, Repr

/-! ### The two regular expressions

`GIFSICLE_SIZE_REGEX = (?:logical\sscreen\s(\d+x\d+))` and
`GIFSICLE_IMAGE_COUNT_REGEX = (?:(\d+)\simage)`, used with `re.search`
(leftmost match).  Neither pattern needs backtracking: a maximal digit run
followed by the required next literal is the only way either can match at a
given start position, so the matchers below scan start positions left to
right and try a maximal-munch match at each. -/

/-- Python `\s`: the six ASCII whitespace characters. -/
def isSpaceCh (c : Char) : Bool :=
  c = ' ' || c = '\t' || c = '\n' || c = '\r' || c = '\x0b' || c = '\x0c'

/-- Python `int` applied to a non-empty decimal digit string. -/
def digitsVal (ds : List Char) : Nat :=
  ds.foldl (fun acc c => acc * 10 + (c.toNat - 48)) 0

/-- Match a literal word at the head of the input, returning the rest. -/
def stripLit : List Char → List Char → Option (List Char)
  | [], s => some s
  | _ :: _, [] => none
  | l :: ls, c :: cs => if c = l then stripLit ls cs else none

/-- Try the size pattern `logical\sscreen\s(\d+x\d+)` at the head of the
input; the capture group is returned as the two parsed numbers (the code
splits the captured `WxH` on the letter x and applies `int` to both halves). -/
def sizeAt (s : List Char) : Option (Nat × Nat) :=
  match stripLit "logical".toList s with
  | none => none
  | some [] => none
  | some (c :: s2) =>
    if isSpaceCh c then
      match stripLit "screen".toList s2 with
      | none => none
      | some [] => none
      | some (c2 :: s4) =>
        if isSpaceCh c2 then
          let (d1, s5) := s4.span Char.isDigit
          if d1 = [] then none
          else
            match s5 with
            | 'x' :: s6 =>
              let (d2, _) := s6.span Char.isDigit
              if d2 = [] then none
              else some (digitsVal d1, digitsVal d2)
            | _ => none
        else none
    else none

/-- Python `re.search` with the size pattern: leftmost match. -/
def searchSize : List Char → Option (Nat × Nat)
  | [] => none
  | c :: rest =>
    match sizeAt (c :: rest) with
    | some r => some r
    | none => searchSize rest

/-- Try the count pattern `(\d+)\simage` at the head of the input. -/
def countAt (s : List Char) : Option Nat :=
  match s.span Char.isDigit with
  | (d, rest) =>
    if d = [] then none
    else
      match rest with
      | [] => none
      | c :: rest2 =>
        if isSpaceCh c then
          match stripLit "image".toList rest2 with
          | some _ => some (digitsVal d)
          | none => none
        else none

/-- Python `re.search` with the count pattern: leftmost match. -/
def searchCount : List Char → Option Nat
  | [] => none
  | c :: rest =>
    match countAt (c :: rest) with
    | some r => some r
    | none => searchCount rest

/-! ### The engine operations -/

/-- Helper for `pySplit`: accumulates the current word (reversed). -/
def pySplitAux (acc : List Char) : List Char → List (List Char)
  | [] => [acc.reverse]
  | c :: cs =>
    if c = ' ' then acc.reverse :: pySplitAux [] cs
    else pySplitAux (c :: acc) cs

/-- Python `command.split(' ')`: split on every single space character,
keeping empty words between consecutive spaces. -/
def pySplit (s : String) : List String :=
  (pySplitAux [] s.toList).map String.mk

/-- Source `Engine.run_gifsicle(command)`: spawn gifsicle with
`[gifsicle_path] + command.split(' ')`, feed the current buffer on stdin,
and either return stdout or raise `GifSicleError` carrying the exit code and
the command line extended by the request URL. -/
def run_gifsicle (env : Env) (s : EngineState) (command : String) :
    Except Err Buf × List Call :=
  let argv := env.gifsicle_path :: pySplit command
  let res := env.rungif argv s.buffer
  if res.1 ≠ 0 then
    (.error (.gifSicleError res.1 (argv ++ [env.request_url])), [.gifsicle argv s.buffer])
  else
    (.ok res.2, [.gifsicle argv s.buffer])

/-- Source `Engine.update_image_info()`: probe gifsicle in info mode and parse the
size and frame-count tokens out of its output.  A failed regex search leaves
`None`, and the subsequent `.groups()` call raises `AttributeError`. -/
def update_image_info (env : Env) (s : EngineState) :
    Except Err EngineState × List Call :=
  let s := { s with is_multiple_flag := false }
  match run_gifsicle env s "--info" with
  | (.error e, tr) => (.error e, tr)
  | (.ok result, tr) =>
    match searchSize result.toList with
    | none => (.error .attributeError, tr)
    | some (w, h) =>
      match searchCount result.toList with
      | none => (.error .attributeError, tr)
      | some n =>
        (.ok { s with image_size := some (w, h), frame_count := some n }, tr)

/-- Source `Engine.load(buffer, extension)`: initialise the adapter state (fresh
instance, one `load` per instance) and, unless the extension is `.heif`,
probe the metadata. -/
def load (env : Env) (buffer : Buf) (extension : String) :
    Except Err EngineState × List Call :=
  let s : EngineState :=
    { extension := extension, buffer := buffer, image := "",
      operations := [], image_size := none, frame_count := none,
      is_multiple_flag := false }
  if extension ≠ ".heif" then update_image_info env s else (.ok s, [])

/-- Source `Engine.size` property: returns `self.image_size` (`none` models the
`AttributeError` of reading it before it was ever assigned). -/
def size (s : EngineState) : Option (Nat × Nat) :=
  s.image_size

/-- Source `Engine.is_multiple()`: `self.frame_count > 1`; reading `frame_count`
before it was assigned raises `AttributeError`. -/
def is_multiple (s : EngineState) : Except Err Bool :=
  match s.frame_count with
  | none => .error .attributeError
  | some n => .ok (decide (1 < n))

/-- Source `Engine.resize(width, height)`: enqueue one resize fragment, or nothing
when both arguments are zero.  The call sites pass pixel dimensions, so the
arguments are modelled as naturals; the Python conditions `width > 0 and
height == 0` etc. translate verbatim. -/
def resize (s : EngineState) (width height : Nat) : EngineState :=
  if width = 0 ∧ height = 0 then s
  else if width > 0 ∧ height = 0 then
    { s with operations := s.operations ++ ["--resize-width " ++ toString width] }
  else if height > 0 ∧ width = 0 then
    { s with operations := s.operations ++ ["--resize-height " ++ toString height] }
  else
    { s with operations := s.operations ++
        ["--resize " ++ toString width ++ "x" ++ toString height] }

/-- Source `Engine.rotate(degrees)`: degrees outside 90/180/270 are silently
ignored; otherwise one rotation fragment is enqueued. -/
def rotate (s : EngineState) (degrees : Int) : EngineState :=
  if degrees ∈ ([90, 180, 270] : List Int) then
    { s with operations := s.operations ++ ["--rotate-" ++ toString degrees] }
  else s

/-- Source `Engine.flip_vertically()`. -/
def flip_vertically (s : EngineState) : EngineState :=
  { s with operations := s.operations ++ ["--flip-vertical"] }

/-- Source `Engine.flip_horizontally()`. -/
def flip_horizontally (s : EngineState) : EngineState :=
  { s with operations := s.operations ++ ["--flip-horizontal"] }

/-- Source `Engine.convert_to_grayscale()`. -/
def convert_to_grayscale (s : EngineState) : EngineState :=
  { s with operations := s.operations ++ ["--use-colormap gray"] }

/-- Source `Engine.flush_operations()`: no-op on an empty queue; otherwise run
gifsicle once on the space-joined fragments, replace the buffer with its
stdout and clear the queue. -/
def flush_operations (env : Env) (s : EngineState) :
    Except Err EngineState × List Call :=
  if s.operations = [] then (.ok s, [])
  else
    match run_gifsicle env s (String.intercalate " " s.operations) with
    | (.error e, tr) => (.error e, tr)
    | (.ok out, tr) => (.ok { s with buffer := out, operations := [] }, tr)

/-- The statement sequence `self.flush_operations(); self.update_image_info()`
shared by the tails of `crop` and `extract_cover`: run the flush, and if it
succeeds run the metadata probe, accumulating the event traces. -/
def flush_and_update (env : Env) (s : EngineState) :
    Except Err EngineState × List Call :=
  match flush_operations env s with
  | (.error e, tr) => (.error e, tr)
  | (.ok s2, tr) =>
    match update_image_info env s2 with
    | (.error e, tr2) => (.error e, tr ++ tr2)
    | (.ok s3, tr2) => (.ok s3, tr ++ tr2)

/-- Source `Engine.crop(left, top, right, bottom)`: enqueue the crop fragment, flush
immediately, then refresh the metadata. -/
def crop (env : Env) (s : EngineState) (left top right bottom : Int) :
    Except Err EngineState × List Call :=
  let arguments := "--crop " ++ toString left ++ "," ++ toString top ++ "-" ++
    toString right ++ "," ++ toString bottom
  flush_and_update env { s with operations := s.operations ++ [arguments] }

/-- Source `Engine.extract_cover()`: enqueue the first-frame selector `#0`, flush
immediately, then refresh the metadata. -/
def extract_cover (env : Env) (s : EngineState) :
    Except Err EngineState × List Call :=
  let arguments := "#0"
  flush_and_update env { s with operations := s.operations ++ [arguments] }

/-- The target extension of `read`: `extension = extension or self.extension`
(Python `or`, so both a missing argument and the falsy empty string fall back
to the extension recorded at load time). -/
def resolveExt (s : EngineState) (ext : Option String) : String :=
  match ext with
  | none => s.extension
  | some e => if e = "" then s.extension else e

/-- The gif2webp command line built in the webp branch of `read`. -/
def webpCommand (env : Env) (quality : Option Nat) : List String :=
  let q := match quality with | none => env.quality_cfg | some q => q
  [env.gif2web_path, "-q", toString q, env.tmp1, "-o", env.tmp2]

/-- The HEIF-to-JPEG command line built in the heif branch of `read`. -/
def heifCommand (env : Env) : List String :=
  [env.heif2jpeg_path, env.tmp1, env.tmp2]

/-- Source `Engine.read(extension=None, quality=None)`: the terminal operation.
A `.webp` target (or a `.jpg` target on a `.heif` source) takes a transcode
path: write the buffer to a temporary file, run the dedicated transcoder into
a second temporary file, read the result back, and unlink both files in a
`finally` block on every exit path.  Any other target flushes the pending
operations, verifies the buffer with PIL and returns it.  The result pairs
the returned bytes with the post-call adapter state. -/
def read (env : Env) (s : EngineState) (ext : Option String) (quality : Option Nat) :
    Except Err (Buf × EngineState) × List Call :=
  let extension := resolveExt s ext
  if extension = ".webp" then
    let command := webpCommand env quality
    let pre : List Call := [.tmpCreate env.tmp1, .tmpCreate env.tmp2]
    let post : List Call := [.tmpUnlink env.tmp1, .tmpUnlink env.tmp2]
    match env.gif2webp_exit command with
    | none =>
      (.error .spawnError, pre ++ [.gif2webp command] ++ post)
    | some rc =>
      if rc ≠ 0 then
        (.error (.gif2WebpError rc (command ++ [env.request_url])),
         pre ++ [.gif2webp command] ++ post)
      else
        (.ok (env.webp_result, s), pre ++ [.gif2webp command] ++ post)
  else if s.extension = ".heif" ∧ extension = ".jpg" then
    let command := heifCommand env
    let pre : List Call := [.tmpCreate env.tmp1, .tmpCreate env.tmp2]
    let post : List Call := [.tmpUnlink env.tmp1, .tmpUnlink env.tmp2]
    match env.heif2jpg_exit command with
    | none =>
      (.error .spawnError, pre ++ [.heif2jpg command] ++ post)
    | some rc =>
      if rc ≠ 0 then
        (.error (.heif2JpgError rc (command ++ [env.request_url])),
         pre ++ [.heif2jpg command] ++ post)
      else
        (.ok (env.jpg_result, s), pre ++ [.heif2jpg command] ++ post)
  else
    match flush_operations env s with
    | (.error e, tr) => (.error e, tr)
    | (.ok s2, tr) =>
      if env.verify_ok s2.buffer then (.ok (s2.buffer, s2), tr)
      else (.error .verificationError, tr ++ [.metricsIncr "gif_engine.no_output"])

/-! ### Trace observers and concrete test fixtures -/

/-- Whether an event is a gifsicle subprocess invocation. -/
def Call.isGifsicle : Call → Bool
  | .gifsicle _ _ => true
  | _ => false

/-- Whether an event is a temporary-file creation. -/
def Call.isCreate : Call → Bool
  | .tmpCreate _ => true
  | _ => false

/-- Whether an event is a file deletion. -/
def Call.isUnlink : Call → Bool
  | .tmpUnlink _ => true
  | _ => false

/-- Modelled from the spec: the error-handling design distinguishes a
`MetadataParseError`-kind failure — a deliberately signalled
"input unparsable/corrupt" error — from a crash, meaning an incidental
runtime fault such as an attribute access on a value that is not there.
The code defines no parse-error exception class at all; the failure it
actually produces on unparsable info output is the `AttributeError` raised
by calling `.groups()` on `None`, which is of the crash kind. -/
def Err.isCrash : Err → Bool
  | .attributeError => true
  | _ => false

/-- A fixture environment in which every subprocess succeeds and the info
output reports a 100x50 logical screen with 3 frames. -/
def okEnv : Env :=
  { gifsicle_path := "gifsicle", gif2web_path := "gif2webp",
    heif2jpeg_path := "heif2jpg", quality_cfg := 80,
    request_url := "http://example.com/t.gif",
    rungif := fun _ _ => (0, "logical screen 100x50 with 3 images"),
    gif2webp_exit := fun _ => some 0, webp_result := "WEBPBYTES",
    heif2jpg_exit := fun _ => some 0, jpg_result := "JPGBYTES",
    tmp1 := "tmp-in", tmp2 := "tmp-out", verify_ok := fun _ => true }

/-- A fixture environment in which every subprocess exits with code 1. -/
def failEnv : Env :=
  { okEnv with
    rungif := (fun _ _ => (1, "")),
    gif2webp_exit := (fun _ => some 1),
    heif2jpg_exit := (fun _ => some 1) }

/-- A fixture environment whose info output carries neither a dimension
token nor a frame-count token. -/
def badInfoEnv : Env :=
  { okEnv with rungif := fun _ _ => (0, "gifsicle could not parse this") }

/-- A loaded GIF state with no pending operations. -/
def sEmpty : EngineState :=
  { extension := ".gif", buffer := "GIF89a-bytes", image := "",
    operations := [], image_size := some (100, 50), frame_count := some 3,
    is_multiple_flag := false }

/-- A loaded GIF state with one pending (unflushed) operation. -/
def sPend : EngineState :=
  { sEmpty with operations := ["--flip-vertical"] }

/-- The state `load okEnv "GIFBYTES" ".gif"` produces. -/
def sLoaded : EngineState :=
  { extension := ".gif", buffer := "GIFBYTES", image := "",
    operations := [], image_size := some (100, 50), frame_count := some 3,
    is_multiple_flag := false }

/-- A loaded HEIF state (no metadata, as `load` skips the probe). -/
def sHeif : EngineState :=
  { extension := ".heif", buffer := "HEIF-bytes", image := "",
    operations := [], image_size := none, frame_count := none,
    is_multiple_flag := false }

/-! ### Claim theorems -/

/-- C4: `resize(0,0)` leaves the pending operation list unchanged; a
width-only call appends exactly one width-constrained fragment; a
height-only call appends exactly one height-constrained fragment; a call
with both appends exactly one exact `WxH` fragment — and `resize` never
flushes (the buffer is untouched and no subprocess runs; `resize` is a pure
state update). -/
theorem resize_enqueue_spec (s : EngineState) (width height : Nat) :
    (width = 0 → height = 0 → resize s width height = s) ∧
    (0 < width → height = 0 →
      resize s width height =
        { s with operations := s.operations ++ ["--resize-width " ++ toString width] }) ∧
    (0 < height → width = 0 →
      resize s width height =
        { s with operations := s.operations ++ ["--resize-height " ++ toString height] }) ∧
    (0 < width → 0 < height →
      resize s width height =
        { s with operations := s.operations ++
            ["--resize " ++ toString width ++ "x" ++ toString height] }) ∧
    (resize s width height).buffer = s.buffer := by
  refine ⟨fun h1 h2 => ?_, fun h1 h2 => ?_, fun h1 h2 => ?_, fun h1 h2 => ?_, ?_⟩
  · simp [resize, h1, h2]
  · unfold resize
    rw [if_neg (by omega), if_pos (by omega)]
  · unfold resize
    rw [if_neg (by omega), if_neg (by omega), if_pos (by omega)]
  · unfold resize
    rw [if_neg (by omega), if_neg (by omega), if_neg (by omega)]
  · unfold resize
    split_ifs <;> rfl

/-- Witness for C4: all four shapes at concrete arguments. -/
theorem resize_enqueue_spec_witness :
    resize sEmpty 0 0 = sEmpty ∧
    resize sEmpty 50 0 = { sEmpty with operations := ["--resize-width 50"] } ∧
    resize sEmpty 0 40 = { sEmpty with operations := ["--resize-height 40"] } ∧
    resize sEmpty 50 40 = { sEmpty with operations := ["--resize 50x40"] } :=
  ⟨(resize_enqueue_spec sEmpty 0 0).1 rfl rfl,
   (resize_enqueue_spec sEmpty 50 0).2.1 (by decide) rfl,
   (resize_enqueue_spec sEmpty 0 40).2.2.1 (by decide) rfl,
   (resize_enqueue_spec sEmpty 50 40).2.2.2.1 (by decide) (by decide)⟩

/-- C8: `rotate(degrees)` outside 90/180/270 returns normally and leaves the
pending list unchanged; inside that set it appends exactly one rotation
fragment, and it never flushes (pure state update, no subprocess). -/
theorem rotate_enqueue_spec (s : EngineState) (degrees : Int) :
    (degrees ∉ ([90, 180, 270] : List Int) → rotate s degrees = s) ∧
    (degrees ∈ ([90, 180, 270] : List Int) →
      rotate s degrees =
        { s with operations := s.operations ++ ["--rotate-" ++ toString degrees] }) ∧
    (rotate s degrees).buffer = s.buffer := by
  refine ⟨fun h => ?_, fun h => ?_, ?_⟩
  · simp [rotate, h]
  · simp [rotate, h]
  · unfold rotate
    split_ifs <;> rfl

/-- Witness for C8: a rejected and an accepted angle. -/
theorem rotate_enqueue_spec_witness :
    rotate sEmpty 45 = sEmpty ∧
    rotate sEmpty 90 = { sEmpty with operations := ["--rotate-90"] } :=
  ⟨(rotate_enqueue_spec sEmpty 45).1 (by decide),
   (rotate_enqueue_spec sEmpty 90).2.1 (by decide)⟩

/-- C9: with an empty pending list, `flush_operations` makes no external
call and is the identity on the adapter state (in particular the buffer is
byte-identical). -/
theorem flush_operations_empty_identity (env : Env) (s : EngineState)
    (h : s.operations = []) :
    flush_operations env s = (Except.ok s, []) := by
  simp [flush_operations, h]

/-- Witness for C9. -/
theorem flush_operations_empty_identity_witness :
    flush_operations okEnv sEmpty = (Except.ok sEmpty, []) :=
  flush_operations_empty_identity okEnv sEmpty rfl

/-- C10: `read` with the extension omitted or falsy (Python `None` or the
empty string) behaves exactly like `read` with the extension recorded at
load time — in particular a buffer loaded as `.webp` takes the webp
transcode path even when `read` gets no arguments, which the third part
shows on the event trace. -/
theorem read_default_extension (env : Env) (s : EngineState) (q : Option Nat) :
    read env s none q = read env s (some s.extension) q ∧
    read env s (some "") q = read env s (some s.extension) q ∧
    (s.extension = ".webp" →
      (read env s none q).2 =
        [Call.tmpCreate env.tmp1, Call.tmpCreate env.tmp2,
         Call.gif2webp (webpCommand env q),
         Call.tmpUnlink env.tmp1, Call.tmpUnlink env.tmp2]) := by
  have h1 : resolveExt s (some s.extension) = resolveExt s none := by
    simp [resolveExt]
  have h2 : resolveExt s (some "") = resolveExt s none := by
    simp [resolveExt]
  refine ⟨?_, ?_, ?_⟩
  · unfold read
    rw [h1]
  · unfold read
    rw [h2, h1]
  · intro hw
    have h3 : resolveExt s none = ".webp" := hw
    simp only [read, h3, if_pos rfl]
    cases env.gif2webp_exit (webpCommand env q) with
    | none => rfl
    | some rc =>
      by_cases hrc : rc = 0 <;> simp [hrc]

/-- Witness for C10 (third part has a hypothesis): a `.webp`-loaded state
read with no arguments produces the webp transcode trace. -/
theorem read_default_extension_witness :
    (read okEnv { sEmpty with extension := ".webp" } none none).2 =
      [Call.tmpCreate "tmp-in", Call.tmpCreate "tmp-out",
       Call.gif2webp ["gif2webp", "-q", "80", "tmp-in", "-o", "tmp-out"],
       Call.tmpUnlink "tmp-in", Call.tmpUnlink "tmp-out"] :=
  (read_default_extension okEnv { sEmpty with extension := ".webp" } none).2.2 rfl

/-- C5: a non-zero exit status from any of the three external tools
(gifsicle operation or info mode, gif2webp, the HEIF-to-JPEG converter)
raises the corresponding fatal error carrying the exit code and the full
invoked command-line word list, which contains the binary path and the
originating request URL (the Python exception message interpolates exactly
this code and this space-joined list; see `Err.message`). -/
theorem nonzero_exit_fatal (env : Env) (s : EngineState) (command : String)
    (ext : Option String) (q : Option Nat) (rc : Int) (out : Buf) :
    (env.rungif (env.gifsicle_path :: pySplit command) s.buffer = (rc, out) → rc ≠ 0 →
      run_gifsicle env s command =
        (Except.error (Err.gifSicleError rc
          ((env.gifsicle_path :: pySplit command) ++ [env.request_url])),
         [Call.gifsicle (env.gifsicle_path :: pySplit command) s.buffer]) ∧
      env.gifsicle_path ∈ (env.gifsicle_path :: pySplit command) ++ [env.request_url] ∧
      env.request_url ∈ (env.gifsicle_path :: pySplit command) ++ [env.request_url]) ∧
    (resolveExt s ext = ".webp" →
      env.gif2webp_exit (webpCommand env q) = some rc → rc ≠ 0 →
      (read env s ext q).1 =
        Except.error (Err.gif2WebpError rc (webpCommand env q ++ [env.request_url])) ∧
      env.gif2web_path ∈ webpCommand env q ++ [env.request_url] ∧
      env.request_url ∈ webpCommand env q ++ [env.request_url]) ∧
    (s.extension = ".heif" → resolveExt s ext = ".jpg" →
      env.heif2jpg_exit (heifCommand env) = some rc → rc ≠ 0 →
      (read env s ext q).1 =
        Except.error (Err.heif2JpgError rc (heifCommand env ++ [env.request_url])) ∧
      env.heif2jpeg_path ∈ heifCommand env ++ [env.request_url] ∧
      env.request_url ∈ heifCommand env ++ [env.request_url]) := by
  refine ⟨fun hrun hrc => ?_, fun hext hexit hrc => ?_, fun hsrc hext hexit hrc => ?_⟩
  · refine ⟨?_, by simp, by simp⟩
    simp only [run_gifsicle, hrun, if_pos hrc]
  · refine ⟨?_, by simp [webpCommand], by simp [webpCommand]⟩
    simp only [read, hext, if_pos rfl, hexit, if_pos hrc]
    simp
  · have hne : resolveExt s ext ≠ ".webp" := by
      rw [hext]; decide
    refine ⟨?_, by simp [heifCommand], by simp [heifCommand]⟩
    simp only [read, hext, hsrc, if_neg hne]
    simp only [hexit, if_pos hrc]
    simp

/-- Witness for C5: all three tools at exit code 1. -/
theorem nonzero_exit_fatal_witness :
    run_gifsicle failEnv sEmpty "--info" =
      (Except.error (Err.gifSicleError 1
        ["gifsicle", "--info", "http://example.com/t.gif"]),
       [Call.gifsicle ["gifsicle", "--info"] "GIF89a-bytes"]) ∧
    (read failEnv sEmpty (some ".webp") none).1 =
      Except.error (Err.gif2WebpError 1
        ["gif2webp", "-q", "80", "tmp-in", "-o", "tmp-out", "http://example.com/t.gif"]) ∧
    (read failEnv sHeif (some ".jpg") none).1 =
      Except.error (Err.heif2JpgError 1
        ["heif2jpg", "tmp-in", "tmp-out", "http://example.com/t.gif"]) :=
  ⟨((nonzero_exit_fatal failEnv sEmpty "--info" none none 1 "").1 rfl (by decide)).1,
   ((nonzero_exit_fatal failEnv sEmpty "--info" (some ".webp") none 1 "").2.1
     rfl rfl (by decide)).1,
   ((nonzero_exit_fatal failEnv sHeif "--info" (some ".jpg") none 1 "").2.2
     rfl rfl rfl (by decide)).1⟩

/-- Characterisation of `update_image_info`: it performs exactly one info
probe on the current buffer, and on success the cached metadata is exactly
what the two regexes parse out of the probe output, while the buffer,
extension and pending operations are untouched. -/
theorem update_image_info_chars (env : Env) (s : EngineState) :
    (update_image_info env s).2 =
      [Call.gifsicle [env.gifsicle_path, "--info"] s.buffer] ∧
    ∀ s', (update_image_info env s).1 = Except.ok s' →
      s'.image_size =
        searchSize ((env.rungif [env.gifsicle_path, "--info"] s.buffer).2).toList ∧
      s'.image_size ≠ none ∧
      s'.frame_count =
        searchCount ((env.rungif [env.gifsicle_path, "--info"] s.buffer).2).toList ∧
      s'.frame_count ≠ none ∧
      s'.buffer = s.buffer ∧ s'.extension = s.extension ∧
      s'.operations = s.operations := by
  have hsp : (env.gifsicle_path :: pySplit "--info") = [env.gifsicle_path, "--info"] := rfl
  simp only [update_image_info, run_gifsicle, hsp]
  rcases hp : env.rungif [env.gifsicle_path, "--info"] s.buffer with ⟨rc, outp⟩
  dsimp only
  by_cases hrc : rc = 0
  · subst hrc
    rw [if_neg (by omega : ¬((0 : Int) ≠ 0))]
    dsimp only
    rcases hs : searchSize outp.toList with _ | ⟨w, ht⟩
    · refine ⟨rfl, fun s' h => ?_⟩
      simp at h
    · rcases hc : searchCount outp.toList with _ | n
      · refine ⟨rfl, fun s' h => ?_⟩
        simp at h
      · refine ⟨rfl, fun s' h => ?_⟩
        simp only [Except.ok.injEq] at h
        subst h
        simp [hs, hc]
  · rw [if_pos hrc]
    refine ⟨rfl, fun s' h => ?_⟩
    simp at h

/-- Characterisation of a successful `flush_operations`: the pending list
comes out empty and the metadata fields and extension are untouched. -/
theorem flush_operations_ok_chars (env : Env) (s s' : EngineState) (tr : List Call)
    (h : flush_operations env s = (Except.ok s', tr)) :
    s'.operations = [] ∧ s'.extension = s.extension ∧
    s'.image_size = s.image_size ∧ s'.frame_count = s.frame_count := by
  unfold flush_operations at h
  by_cases he : s.operations = []
  · rw [if_pos he] at h
    simp only [Prod.mk.injEq, Except.ok.injEq] at h
    rw [← h.1, he]
    exact ⟨rfl, rfl, rfl, rfl⟩
  · rw [if_neg he] at h
    rcases hr : run_gifsicle env s (String.intercalate " " s.operations) with ⟨rr, rtr⟩
    rw [hr] at h
    cases rr with
    | error e => simp at h
    | ok out =>
      simp only [Prod.mk.injEq, Except.ok.injEq] at h
      rw [← h.1]
      exact ⟨rfl, rfl, rfl, rfl⟩

/-- C7: `load` with extension `.heif` performs no metadata probe (and its
result is the bare initial state); `load` with any other extension performs
exactly one info probe, and on success `size()` is exactly the pair parsed
from the `WxH` token while `is_multiple()` is true iff the parsed frame
count exceeds 1. -/
theorem load_probe_and_metadata (env : Env) (buf : Buf) (ext : String) :
    load env buf ".heif" =
      (Except.ok { extension := ".heif", buffer := buf, image := "",
                   operations := [], image_size := none, frame_count := none,
                   is_multiple_flag := false }, []) ∧
    (ext ≠ ".heif" →
      (load env buf ext).2 = [Call.gifsicle [env.gifsicle_path, "--info"] buf] ∧
      ∀ s', (load env buf ext).1 = Except.ok s' →
        size s' = searchSize ((env.rungif [env.gifsicle_path, "--info"] buf).2).toList ∧
        size s' ≠ none ∧
        s'.frame_count =
          searchCount ((env.rungif [env.gifsicle_path, "--info"] buf).2).toList ∧
        ∀ n, s'.frame_count = some n →
          is_multiple s' = Except.ok (decide (1 < n))) := by
  constructor
  · rfl
  · intro h
    have hload : load env buf ext =
        update_image_info env
          { extension := ext, buffer := buf, image := "", operations := [],
            image_size := none, frame_count := none, is_multiple_flag := false } := by
      simp [load, h]
    have hc := update_image_info_chars env
      { extension := ext, buffer := buf, image := "", operations := [],
        image_size := none, frame_count := none, is_multiple_flag := false }
    rw [hload]
    refine ⟨hc.1, fun s' hok => ?_⟩
    obtain ⟨h1, h2, h3, _, _, _, _⟩ := hc.2 s' hok
    refine ⟨h1, h2, h3, fun n hn => ?_⟩
    simp [is_multiple, hn]

/-- Witness for C7: a concrete 100x50, 3-frame load. -/
theorem load_probe_and_metadata_witness :
    (load okEnv "GIFBYTES" ".gif").2 =
      [Call.gifsicle ["gifsicle", "--info"] "GIFBYTES"] ∧
    size sLoaded = some (100, 50) ∧
    is_multiple sLoaded = Except.ok true := by
  have h := (load_probe_and_metadata okEnv "GIFBYTES" ".gif").2 (by decide)
  exact ⟨h.1, (h.2 sLoaded rfl).1, (h.2 sLoaded rfl).2.2.2 3 rfl⟩

/-- Characterisation of a successful `flush_and_update`: the pending list is
empty afterwards and the metadata was refreshed by an info probe, recorded
in the trace, on the resulting buffer. -/
theorem flush_and_update_ok_chars (env : Env) (s : EngineState) :
    ∀ s' tr, flush_and_update env s = (Except.ok s', tr) →
      s'.operations = [] ∧
      Call.gifsicle [env.gifsicle_path, "--info"] s'.buffer ∈ tr ∧
      s'.image_size =
        searchSize ((env.rungif [env.gifsicle_path, "--info"] s'.buffer).2).toList ∧
      s'.image_size ≠ none ∧
      s'.frame_count =
        searchCount ((env.rungif [env.gifsicle_path, "--info"] s'.buffer).2).toList := by
  intro s' tr h
  unfold flush_and_update at h
  rcases hf : flush_operations env s with ⟨fr, ftr⟩
  rw [hf] at h
  cases fr with
  | error e => simp at h
  | ok s2 =>
    dsimp only at h
    rcases hu : update_image_info env s2 with ⟨ur, utr⟩
    rw [hu] at h
    cases ur with
    | error e => simp at h
    | ok s3 =>
      dsimp only at h
      simp only [Prod.mk.injEq, Except.ok.injEq] at h
      obtain ⟨rfl, rfl⟩ := h
      have hc := update_image_info_chars env s2
      have hu1 : (update_image_info env s2).1 = Except.ok s3 := by rw [hu]
      obtain ⟨hsize, hsz, hfc, _, hbuf, _, hops⟩ := hc.2 s3 hu1
      have hutr : utr = [Call.gifsicle [env.gifsicle_path, "--info"] s2.buffer] := by
        rw [show utr = (update_image_info env s2).2 by rw [hu]]
        exact hc.1
      have hflush := flush_operations_ok_chars env s s2 ftr hf
      refine ⟨?_, ?_, ?_, hsz, ?_⟩
      · rw [hops, hflush.1]
      · rw [hutr, hbuf]
        exact List.mem_append_right _ (by simp)
      · rw [hbuf]
        exact hsize
      · rw [hbuf]
        exact hfc

/-- C6: whenever `crop` or `extract_cover` returns successfully from a state
with pending operations, the pending list is empty afterwards and the cached
metadata was refreshed by a fresh info probe on the new buffer (the probe
call is in the trace, and the cached size and frame count are exactly what
the regexes parse from that probe output). -/
theorem crop_extract_cover_flush_invariant (env : Env) (s : EngineState)
    (l t r b : Int) (_hpend : s.operations ≠ []) :
    (∀ s' tr, crop env s l t r b = (Except.ok s', tr) →
      s'.operations = [] ∧
      Call.gifsicle [env.gifsicle_path, "--info"] s'.buffer ∈ tr ∧
      s'.image_size =
        searchSize ((env.rungif [env.gifsicle_path, "--info"] s'.buffer).2).toList ∧
      s'.image_size ≠ none ∧
      s'.frame_count =
        searchCount ((env.rungif [env.gifsicle_path, "--info"] s'.buffer).2).toList) ∧
    (∀ s' tr, extract_cover env s = (Except.ok s', tr) →
      s'.operations = [] ∧
      Call.gifsicle [env.gifsicle_path, "--info"] s'.buffer ∈ tr ∧
      s'.image_size =
        searchSize ((env.rungif [env.gifsicle_path, "--info"] s'.buffer).2).toList ∧
      s'.image_size ≠ none ∧
      s'.frame_count =
        searchCount ((env.rungif [env.gifsicle_path, "--info"] s'.buffer).2).toList) :=
  ⟨fun s' tr h => flush_and_update_ok_chars env _ s' tr h,
   fun s' tr h => flush_and_update_ok_chars env _ s' tr h⟩

/-- Witness for C6: a concrete crop on a state with one pending flip. -/
theorem crop_extract_cover_flush_invariant_witness :
    ({ sEmpty with buffer := "logical screen 100x50 with 3 images" }
        : EngineState).operations = [] ∧
    Call.gifsicle ["gifsicle", "--info"] "logical screen 100x50 with 3 images" ∈
      [Call.gifsicle ["gifsicle", "--flip-vertical", "--crop", "1,2-3,4"] "GIF89a-bytes",
       Call.gifsicle ["gifsicle", "--info"] "logical screen 100x50 with 3 images"] ∧
    ({ sEmpty with buffer := "logical screen 100x50 with 3 images" }
        : EngineState).image_size = some (100, 50) ∧
    ({ sEmpty with buffer := "logical screen 100x50 with 3 images" }
        : EngineState).image_size ≠ none ∧
    ({ sEmpty with buffer := "logical screen 100x50 with 3 images" }
        : EngineState).frame_count = some 3 :=
  (crop_extract_cover_flush_invariant okEnv sPend 1 2 3 4 (by decide)).1
    { sEmpty with buffer := "logical screen 100x50 with 3 images" }
    [Call.gifsicle ["gifsicle", "--flip-vertical", "--crop", "1,2-3,4"] "GIF89a-bytes",
     Call.gifsicle ["gifsicle", "--info"] "logical screen 100x50 with 3 images"]
    rfl

/-- C3: on both transcode paths of `read` (webp target, or jpg target on a
heif source), exactly two temporary files are created and exactly those two
are deleted, on every exit path — successful return, transcoder non-zero
exit, and an exception raised during the transcode (the `none` branch of the
transcoder oracle). -/
theorem read_transcode_tmp_cleanup (env : Env) (s : EngineState)
    (ext : Option String) (q : Option Nat)
    (h : resolveExt s ext = ".webp" ∨
      (s.extension = ".heif" ∧ resolveExt s ext = ".jpg")) :
    (read env s ext q).2.filter Call.isCreate =
      [Call.tmpCreate env.tmp1, Call.tmpCreate env.tmp2] ∧
    (read env s ext q).2.filter Call.isUnlink =
      [Call.tmpUnlink env.tmp1, Call.tmpUnlink env.tmp2] := by
  rcases h with hw | ⟨hs, hj⟩
  · simp only [read, hw]
    rw [if_pos trivial]
    cases env.gif2webp_exit (webpCommand env q) with
    | none => exact ⟨rfl, rfl⟩
    | some rc =>
      dsimp only
      by_cases hrc : rc = 0
      · rw [if_neg (by omega : ¬(rc ≠ 0))]
        exact ⟨rfl, rfl⟩
      · rw [if_pos hrc]
        exact ⟨rfl, rfl⟩
  · have hne : resolveExt s ext ≠ ".webp" := by rw [hj]; decide
    simp only [read]
    rw [if_neg hne, if_pos (And.intro hs hj)]
    cases env.heif2jpg_exit (heifCommand env) with
    | none => exact ⟨rfl, rfl⟩
    | some rc =>
      dsimp only
      by_cases hrc : rc = 0
      · rw [if_neg (by omega : ¬(rc ≠ 0))]
        exact ⟨rfl, rfl⟩
      · rw [if_pos hrc]
        exact ⟨rfl, rfl⟩

/-- Witness for C3: a concrete webp read. -/
theorem read_transcode_tmp_cleanup_witness :
    (read okEnv sEmpty (some ".webp") none).2.filter Call.isCreate =
      [Call.tmpCreate "tmp-in", Call.tmpCreate "tmp-out"] ∧
    (read okEnv sEmpty (some ".webp") none).2.filter Call.isUnlink =
      [Call.tmpUnlink "tmp-in", Call.tmpUnlink "tmp-out"] :=
  read_transcode_tmp_cleanup okEnv sEmpty (some ".webp") none (Or.inl (by decide))

/-- C1 counterexample: a `.webp` read on a state with one pending flip
succeeds, produces the transcoded bytes of the unflushed buffer, performs
no gifsicle invocation at all, and returns a state that still carries the
pending operation — so `read` does not apply pending operations on every
target extension; the pending flip is silently absent from the output. -/
theorem read_webp_discards_pending_cx :
    (read okEnv sPend (some ".webp") none).1 =
      Except.ok ("WEBPBYTES", sPend) ∧
    sPend.operations = ["--flip-vertical"] ∧
    (read okEnv sPend (some ".webp") none).2.filter Call.isGifsicle = [] :=
  ⟨rfl, rfl, rfl⟩

/-- C1 amended: `read` flushes still-pending operations (and only then
produces the buffer) exactly on the non-transcode path; on the two transcode
paths (webp target, or jpg target on heif source) the pending operations are
not applied — the state comes back unchanged and no gifsicle call is made. -/
theorem read_flush_only_non_transcode (env : Env) (s : EngineState)
    (ext : Option String) (q : Option Nat) :
    (resolveExt s ext ≠ ".webp" →
      ¬(s.extension = ".heif" ∧ resolveExt s ext = ".jpg") →
      ∀ out s' tr, read env s ext q = (Except.ok (out, s'), tr) →
        s'.operations = [] ∧ out = s'.buffer) ∧
    ((resolveExt s ext = ".webp" ∨
        (s.extension = ".heif" ∧ resolveExt s ext = ".jpg")) →
      ∀ out s' tr, read env s ext q = (Except.ok (out, s'), tr) →
        s' = s ∧ tr.filter Call.isGifsicle = []) := by
  constructor
  · intro h1 h2 out s' tr h
    simp only [read, if_neg h1, if_neg h2] at h
    rcases hf : flush_operations env s with ⟨fr, ftr⟩
    rw [hf] at h
    cases fr with
    | error e => simp at h
    | ok s2 =>
      dsimp only at h
      by_cases hv : env.verify_ok s2.buffer
      · rw [if_pos hv] at h
        simp only [Prod.mk.injEq, Except.ok.injEq] at h
        obtain ⟨⟨rfl, rfl⟩, rfl⟩ := h
        exact ⟨(flush_operations_ok_chars env s s2 ftr hf).1, rfl⟩
      · rw [if_neg hv] at h
        simp at h
  · intro hd out s' tr h
    rcases hd with hw | ⟨hs, hj⟩
    · simp only [read, hw] at h
      rw [if_pos trivial] at h
      cases he : env.gif2webp_exit (webpCommand env q) with
      | none => rw [he] at h; simp at h
      | some rc =>
        rw [he] at h
        dsimp only at h
        by_cases hrc : rc = 0
        · rw [if_neg (by omega : ¬(rc ≠ 0))] at h
          simp only [Prod.mk.injEq, Except.ok.injEq] at h
          obtain ⟨⟨rfl, rfl⟩, rfl⟩ := h
          exact ⟨rfl, rfl⟩
        · rw [if_pos hrc] at h
          simp at h
    · have hne : resolveExt s ext ≠ ".webp" := by rw [hj]; decide
      simp only [read] at h
      rw [if_neg hne, if_pos (And.intro hs hj)] at h
      cases he : env.heif2jpg_exit (heifCommand env) with
      | none => rw [he] at h; simp at h
      | some rc =>
        rw [he] at h
        dsimp only at h
        by_cases hrc : rc = 0
        · rw [if_neg (by omega : ¬(rc ≠ 0))] at h
          simp only [Prod.mk.injEq, Except.ok.injEq] at h
          obtain ⟨⟨rfl, rfl⟩, rfl⟩ := h
          exact ⟨rfl, rfl⟩
        · rw [if_pos hrc] at h
          simp at h

/-- Witness for C1 amended: a plain read flushes the pending flip. -/
theorem read_flush_only_non_transcode_witness :
    ({ sPend with
        buffer := "logical screen 100x50 with 3 images",
        operations := ([] : List String) } : EngineState).operations = [] ∧
    "logical screen 100x50 with 3 images" =
      ({ sPend with
          buffer := "logical screen 100x50 with 3 images",
          operations := ([] : List String) } : EngineState).buffer :=
  (read_flush_only_non_transcode okEnv sPend none none).1 (by decide) (by decide)
    "logical screen 100x50 with 3 images"
    { sPend with buffer := "logical screen 100x50 with 3 images", operations := [] }
    [Call.gifsicle ["gifsicle", "--flip-vertical"] "GIF89a-bytes"] rfl

/-- C2 counterexample: on info output with no dimension token (and no count
token), `load` of a `.gif` fails with `AttributeError` — the incidental
crash from calling `.groups()` on `None` — not with a dedicated
`MetadataParseError`-kind signal; no such error class exists in the module. -/
theorem load_unparsable_crash_cx :
    (load badInfoEnv "GIF89a-bytes" ".gif").1 = Except.error Err.attributeError ∧
    Err.isCrash Err.attributeError = true ∧
    searchSize "gifsicle could not parse this".toList = none ∧
    searchCount "gifsicle could not parse this".toList = none :=
  ⟨rfl, rfl, rfl, rfl⟩

/-- C2 amended: when the info-mode output lacks the dimension token, or has
it but lacks the frame-count token, `load` on a non-heif extension fails by
raising `AttributeError` (the crash from `.groups()` on a failed regex
search); it neither returns normally nor installs default metadata. -/
theorem load_unparsable_attribute_error (env : Env) (buf : Buf) (ext : String)
    (hext : ext ≠ ".heif")
    (hrc : (env.rungif [env.gifsicle_path, "--info"] buf).1 = 0)
    (hbad : searchSize ((env.rungif [env.gifsicle_path, "--info"] buf).2).toList = none ∨
      searchCount ((env.rungif [env.gifsicle_path, "--info"] buf).2).toList = none) :
    (load env buf ext).1 = Except.error Err.attributeError := by
  have hsp : (env.gifsicle_path :: pySplit "--info") = [env.gifsicle_path, "--info"] := rfl
  have hload : load env buf ext =
      update_image_info env
        { extension := ext, buffer := buf, image := "", operations := [],
          image_size := none, frame_count := none, is_multiple_flag := false } := by
    simp [load, hext]
  rw [hload]
  simp only [update_image_info, run_gifsicle, hsp]
  rcases hp : env.rungif [env.gifsicle_path, "--info"] buf with ⟨rc, outp⟩
  rw [hp] at hrc hbad
  dsimp only at hrc hbad ⊢
  subst hrc
  rw [if_neg (by omega : ¬((0 : Int) ≠ 0))]
  dsimp only
  rcases hs : searchSize outp.toList with _ | ⟨w, ht⟩
  · rfl
  · rcases hc : searchCount outp.toList with _ | n
    · rfl
    · rcases hbad with hbad | hbad
      · rw [hs] at hbad; cases hbad
      · rw [hc] at hbad; cases hbad

/-- Witness for C2 amended. -/
theorem load_unparsable_attribute_error_witness :
    (load badInfoEnv "BUF" ".gif").1 = Except.error Err.attributeError :=
  load_unparsable_attribute_error badInfoEnv "BUF" ".gif" (by decide) rfl (Or.inl rfl)

end GifEngine
